import Mathlib

/-!
Verification of the grade-extraction and class-statistics pipeline of
`src/app.py` (functions `process_student_grades` and
`calculate_class_statistics`), shallowly embedded in Lean 4.

A spreadsheet is modelled as a rectangular grid `List (List Cell)`; a
cell is a number, a string, or the missing marker (pandas `NaN`).
Out-of-range positional access on the fixed header rows raises in the
Python code; the embedding returns `Except.error` in exactly those cases.
-/

namespace Inovar

/-- A spreadsheet cell as seen through `pd.read_excel(..., header=None)`:
a numeric value, a textual value, or the missing marker `NaN`. -/
inductive Cell where
  | num (q : ℚ)
  | str (s : String)
  | empty
deriving DecidableEq, Repr

/-- Test `pd.isna` on a cell: true exactly for the missing marker. -/
def Cell.isNA : Cell → Bool
  | .empty => true
  | _ => false

/-- Positional access inside a row; pandas pads ragged excel rows with
`NaN`, so reading past a row's own cells yields the missing marker
(the grid's overall width bound is enforced separately). -/
def getCell (row : List Cell) (i : Nat) : Cell :=
  row.getD i .empty

/-- Whitespace stripping as in Python `str.strip()`: drop whitespace
characters from both ends.  Defined by structural recursion over the
character list so that concrete instances evaluate inside the kernel. -/
def pyStrip (s : String) : String :=
  ⟨((s.data.dropWhile Char.isWhitespace).reverse.dropWhile
      Char.isWhitespace).reverse⟩

/-- ASCII decimal digit test. -/
def isDigitChar (c : Char) : Bool :=
  '0' ≤ c && c ≤ '9'

/-- Python `str.isdigit`: nonempty and all digits.  (Python also accepts
other Unicode digit characters; the grids in scope carry ASCII.) -/
def pyIsdigit (s : String) : Bool :=
  !s.isEmpty && s.data.all isDigitChar

/-- Numeric value of a digit string. -/
def digitsVal (l : List Char) : ℕ :=
  l.foldl (fun acc c => acc * 10 + (c.toNat - 48)) 0

/-- Unsigned part of Python `float(...)` on a string, as a
numerator/denominator pair: decimal digits with an optional fractional
part, at least one digit in total. -/
def parseUnsigned (l : List Char) : Option (ℕ × ℕ) :=
  let intPart := l.takeWhile isDigitChar
  let rest := l.dropWhile isDigitChar
  match rest with
  | [] => if intPart.isEmpty then none else some (digitsVal intPart, 1)
  | '.' :: frac =>
      if frac.all isDigitChar && !(intPart.isEmpty && frac.isEmpty) then
        some (digitsVal (intPart ++ frac), 10 ^ frac.length)
      else none
  | _ => none

/-- Python `float(s)` on an already-stripped string, as used by the grade
coercion: optional sign followed by digits and an optional fraction.
The value is kept as an exact rational (binary floating-point rounding
is not modelled; neither are the exotic accepted forms — exponents,
`inf`, `nan`, underscores — which no grade cell in scope uses).  `none`
is the `ValueError` outcome. -/
def pyFloat? (s : String) : Option ℚ :=
  match s.data with
  | '+' :: rest => (parseUnsigned rest).map (fun p => mkRat p.1 p.2)
  | '-' :: rest => (parseUnsigned rest).map (fun p => mkRat (-(p.1 : ℤ)) p.2)
  | l => (parseUnsigned l).map (fun p => mkRat p.1 p.2)

/-- Rendering of a numeric value back to text, used for `str(val)` on a
numeric header cell and for the f-string in the dispersion report.
Values on the grade scale are floats, printed with a trailing `.0`. -/
def pyNumRepr (q : ℚ) : String :=
  if q.den = 1 then toString q.num ++ ".0"
  else toString q.num ++ "/" ++ toString q.den

/-- Value of `str(val).strip()` on a non-missing header cell. -/
def cellLabel : Cell → String
  | .str s => pyStrip s
  | .num q => pyNumRepr q
  | .empty => ""

/-- Grade normalization (lines 80-92 of `app.py`): strip textual values,
look the result up in the categorical `grade_map`, and otherwise coerce
with `float(...)`; a failed coercion yields the missing marker.
`float(NaN)` is `NaN`, so a missing cell stays missing. -/
def normalizeGrade (c : Cell) : Option ℚ :=
  match c with
  | .str s =>
      let t := pyStrip s
      if t = "Insuficiente" then some 2
      else if t = "Suficiente" then some 3
      else if t = "Bom" then some 4
      else if t = "Muito Bom" then some 5
      else if t = "--" then none
      else pyFloat? t
  | .num q => some q
  | .empty => none

/-- Insert with Python-dict semantics: overwrite in place when the key is
present, append otherwise. -/
def dictInsert (m : List (String × Nat)) (k : String) (v : Nat) :
    List (String × Nat) :=
  if m.any (fun p => p.1 = k) then
    m.map (fun p => if p.1 = k then (k, v) else p)
  else
    m ++ [(k, v)]

/-- Python-dict lookup on the association-list model. -/
def dictLookup (m : List (String × Nat)) (k : String) : Option Nat :=
  (m.find? (fun p => p.1 = k)).map Prod.snd

/-- Forward-filled subject label over the columns `[0, n)` of row 11: the
stripped text of the last non-missing cell at an index `< n`. -/
def ffLabelUpTo (subjectRow : List Cell) : Nat → Option String
  | 0 => none
  | n + 1 =>
      let v := getCell subjectRow n
      if v.isNA then ffLabelUpTo subjectRow n else some (cellLabel v)

/-- One iteration of the column-mapping loop (lines 35-42 of `app.py`) at
column `i`: update the forward-filled subject, then register the current
subject at `i` when the flag row holds the sentinel `"CF"` and the
subject is truthy: `current_subject` is falsy both when still `None` and
when the stripped label is the empty string, so the Python guard
`sub_header == 'CF' and current_subject` is one combined condition. -/
def colMapStep (subjectRow cfRow : List Cell) (i : Nat)
    (st : Option String × List (String × Nat)) :
    Option String × List (String × Nat) :=
  let v := getCell subjectRow i
  let cur' := if v.isNA then st.1 else some (cellLabel v)
  let m' :=
    if getCell cfRow i = Cell.str "CF" ∧ cur'.getD "" ≠ "" then
      dictInsert st.2 (cur'.getD "") i
    else st.2
  (cur', m')

/-- State of the column-mapping loop after the columns `[0, n)`. -/
def colMapUpTo (subjectRow cfRow : List Cell) : Nat → Option String × List (String × Nat)
  | 0 => (none, [])
  | n + 1 => colMapStep subjectRow cfRow n (colMapUpTo subjectRow cfRow n)

/-- The column map `col_mapping` built from header rows 11 and 12 over
all `width` columns. -/
def buildColMap (subjectRow cfRow : List Cell) (width : Nat) :
    List (String × Nat) :=
  (colMapUpTo subjectRow cfRow width).2

/-- An extracted student record: identifier (column 0), name (column 2),
and one normalized grade per column-map entry, in map order. -/
structure Student where
  id : Cell
  name : Cell
  grades : List (Option ℚ)
deriving DecidableEq, Repr

/-- The structured table built by the extractor: the subject columns in
column-map order, and the student rows in source-row order.  (The `ID`
index and the distinguished `Name` column live in the `Student` fields.) -/
structure StructTable where
  subjects : List String
  rows : List Student
deriving DecidableEq, Repr

/-- The stop test of the extraction loop (lines 64-73 of `app.py`): stop
on a missing identifier, or on a textual identifier that is not pure
digits when the name cell is also missing. -/
def stopRow (row : List Cell) : Bool :=
  if (getCell row 0).isNA then true
  else
    match getCell row 0 with
    | .str s => if !pyIsdigit s then (getCell row 2).isNA else false
    | _ => false

/-- Build one student record from an accepted data row (lines 75-94 of
`app.py`): for each `(subject, column)` of the map, the normalized grade
in that column. -/
def mkStudent (colMap : List (String × Nat)) (row : List Cell) : Student :=
  { id := getCell row 0
    name := getCell row 2
    grades := colMap.map (fun p => normalizeGrade (getCell row p.2)) }

/-- The extraction loop over the data rows: accept rows in order until
the first row satisfying the stop test; that row and everything below it
are never turned into records. -/
def extractRows (colMap : List (String × Nat)) : List (List Cell) → List Student
  | [] => []
  | row :: rest =>
      if stopRow row then []
      else mkStudent colMap row :: extractRows colMap rest

/-- Width `df.shape[1]`: the width of the rectangular frame pandas builds from
the (possibly ragged) sheet. -/
def gridWidth (grid : List (List Cell)) : Nat :=
  grid.foldl (fun w r => max w r.length) 0

/-- Fixed layout constants of `app.py`. -/
def SUBJECT_ROW_IDX : Nat := 11

/-- Row index of the confirmation-flag header row. -/
def CF_ROW_IDX : Nat := 12

/-- First data row index. -/
def DATA_START_IDX : Nat := 13

/-- Error text standing for the `IndexError` that positional indexing
raises when the fixed layout is violated; the Python code lets it
propagate to the single `try/except` around the upload handler. -/
def indexErrorMsg : String :=
  "IndexError: single positional indexer is out-of-bounds"

/-- Embedding of `process_student_grades` (lines 14-108 of `app.py`) over an in-memory
grid.  `df.iloc[11]` / `df.iloc[12]` raise when the grid has fewer than
13 rows; `row.iloc[2]` raises when a data row exists but the frame is
narrower than 3 columns (it is read before any stop test runs).  With
zero accepted rows, `pd.DataFrame([])` has no columns at all, so the
result is the fully empty table. -/
def process_student_grades (grid : List (List Cell)) : Except String StructTable :=
  if grid.length < DATA_START_IDX then
    .error indexErrorMsg
  else
    let width := gridWidth grid
    let subjectRow := grid.getD SUBJECT_ROW_IDX []
    let cfRow := grid.getD CF_ROW_IDX []
    let colMap := buildColMap subjectRow cfRow width
    let dataRows := grid.drop DATA_START_IDX
    if width < 3 ∧ dataRows ≠ [] then
      .error indexErrorMsg
    else
      let students := extractRows colMap dataRows
      if students = [] then
        .ok ⟨[], []⟩
      else
        .ok ⟨colMap.map Prod.fst, students⟩

/-- A value of the statistics mapping: an integer count or a piece of
report text. -/
inductive StatValue where
  | nat (n : Nat)
  | str (s : String)
deriving DecidableEq, Repr

/-- Grade of a student in subject column `j` (missing when out of range,
as pandas aligns absent keys to `NaN`). -/
def gradeAt (s : Student) (j : Nat) : Option ℚ :=
  s.grades.getD j none

/-- Row test `grades_df.isna().all(axis=1)` for one row: every subject value is
missing.  Vacuously true when there are no subject columns. -/
def notEvaluated (numSubjects : Nat) (s : Student) : Bool :=
  (List.range numSubjects).all (fun j => (gradeAt s j).isNone)

/-- The evaluated working set: rows with at least one non-missing grade. -/
def evaluatedRows (t : StructTable) : List Student :=
  t.rows.filter (fun s => !notEvaluated t.subjects.length s)

/-- Elementwise `< 3` on a grade; `NaN < 3` is false in pandas. -/
def ltThree : Option ℚ → Bool
  | some q => q < 3
  | none => false

/-- Elementwise `== v` on a grade; `NaN == v` is false in pandas. -/
def eqVal (v : ℚ) : Option ℚ → Bool
  | some q => q = v
  | none => false

/-- Count `(evaluated_df < 3).sum(axis=1)` for one row. -/
def negCount (numSubjects : Nat) (s : Student) : Nat :=
  (List.range numSubjects).countP (fun j => ltThree (gradeAt s j))

/-- Count `(evaluated_df == 5).sum(axis=1)` for one row. -/
def mbCount (numSubjects : Nat) (s : Student) : Nat :=
  (List.range numSubjects).countP (fun j => eqVal 5 (gradeAt s j))

/-- Index of a named subject column (`df[name]`); length when absent. -/
def subjIdx (t : StructTable) (name : String) : Nat :=
  t.subjects.findIdx (fun x => x = name)

/-- Count `(evaluated_df == 2).sum()` for subject column `j`. -/
def insufCount (t : StructTable) (j : Nat) : Nat :=
  (evaluatedRows t).countP (fun s => eqVal 2 (gradeAt s j))

/-- Descending insertion by count; equal counts keep their original order. -/
def insertByCount (x : String × Nat) : List (String × Nat) → List (String × Nat)
  | [] => [x]
  | y :: ys => if y.2 < x.2 then x :: y :: ys else y :: insertByCount x ys

/-- Sort subject/count pairs by count, descending.  (`sort_values` in
pandas leaves tie order unspecified — quicksort —; the embedding fixes
the stable order.  No claim depends on tie order.) -/
def sortByCountDesc : List (String × Nat) → List (String × Nat)
  | [] => []
  | x :: xs => insertByCount x (sortByCountDesc xs)

/-- Non-missing grades of subject column `j` over the evaluated rows. -/
def colVals (t : StructTable) (j : Nat) : List ℚ :=
  (evaluatedRows t).filterMap (fun s => gradeAt s j)

/-- Amplitude `evaluated_df.max() - evaluated_df.min()` for subject column `j`:
`NaN` (here `none`) when the column has no non-missing value. -/
def amplitudeAt (t : StructTable) (j : Nat) : Option ℚ :=
  match colVals t j with
  | [] => none
  | v :: vs => some (vs.foldl max v - vs.foldl min v)

/-- The amplitude series, indexed by subject name in column order. -/
def amplitudes (t : StructTable) : List (String × Option ℚ) :=
  (List.range t.subjects.length).map (fun j => (t.subjects.getD j "", amplitudeAt t j))

/-- Maximum `Series.max()` with pandas' default `skipna`: `NaN` only when every
entry is `NaN`. -/
def seriesMax (l : List (Option ℚ)) : Option ℚ :=
  match l.filterMap id with
  | [] => none
  | v :: vs => some (vs.foldl max v)

/-- Pandas elementwise `==` between two possibly-`NaN` values: false
whenever either side is `NaN` (in particular `NaN == NaN` is false). -/
def optEq : Option ℚ → Option ℚ → Bool
  | some a, some b => a = b
  | _, _ => false

/-- Rendering of the amplitude value in the f-string: `NaN` prints as
`nan`. -/
def pyOptRepr : Option ℚ → String
  | none => "nan"
  | some q => pyNumRepr q

/-- The dispersion report (lines 149-155 of `app.py`): `"N/A"` when the
amplitude series is empty (no subject columns); otherwise the subjects
whose amplitude equals the series maximum, comma-joined, followed by the
amplitude suffix. -/
def dispersionStr (t : StructTable) : String :=
  if t.subjects.isEmpty then "N/A"
  else
    let amps := amplitudes t
    let maxAmp := seriesMax (amps.map Prod.snd)
    let names := (amps.filter (fun p => optEq p.2 maxAmp)).map Prod.fst
    String.intercalate ", " names ++ " (Amplitude: " ++ pyOptRepr maxAmp ++ ")"

/-- The top-3 INSUFICIENTE report: subjects sorted by their count of
grade-2 mentions, descending, first three names comma-joined. -/
def top3Str (t : StructTable) : String :=
  let pairs := (List.range t.subjects.length).map
    (fun j => (t.subjects.getD j "", insufCount t j))
  String.intercalate ", " (((sortByCountDesc pairs).take 3).map Prod.fst)

/-- Label of the PORT./Mat combined metric. -/
def portMatLabel : String :=
  "N.º de alunos com menções inferiores a Suficiente cumulativamente a PORTUGUÊS e MATEMÁTICA"

/-- Label of the dispersion metric. -/
def dispersionLabel : String :=
  "As disciplinas com MAIOR DISPERSÃO/AMPLITUDE DE RESULTADOS"

/-- Embedding of `calculate_class_statistics` (lines 110-170 of `app.py`): the single
`"Erro"` entry on an empty table, otherwise the ordered mapping of the
ten fixed Portuguese labels to their metrics. -/
def calculate_class_statistics (t : StructTable) : List (String × StatValue) :=
  if t.rows.isEmpty then
    [("Erro", .str "Não foram encontrados dados de alunos.")]
  else
    let nSub := t.subjects.length
    let evals := evaluatedRows t
    let portMatVal : StatValue :=
      if "PORT." ∈ t.subjects ∧ "Mat" ∈ t.subjects then
        .nat (evals.countP (fun s =>
          ltThree (gradeAt s (subjIdx t "PORT.")) &&
          ltThree (gradeAt s (subjIdx t "Mat"))))
      else .str "N/A (Colunas não encontradas)"
    [ ("N.º de alunos da Turma", .nat t.rows.length),
      ("N.º de alunos não avaliados", .nat (t.rows.countP (fun s => notEvaluated nSub s))),
      ("N.º de alunos SEM menções inferiores a Suficiente",
        .nat (evals.countP (fun s => negCount nSub s = 0))),
      ("N.º de alunos com TRÊS OU MAIS menções inferiores a Suficiente",
        .nat (evals.countP (fun s => 3 ≤ negCount nSub s))),
      ("N.º TOTAL de alunos com menções inferiores a Suficiente",
        .nat (evals.countP (fun s => 1 ≤ negCount nSub s))),
      (portMatLabel, portMatVal),
      ("N.º de alunos com TRÊS OU MAIS menções de MUITO BOM",
        .nat (evals.countP (fun s => 3 ≤ mbCount nSub s))),
      ("N.º TOTAL de alunos com menções de MUITO BOM",
        .nat (evals.countP (fun s => 1 ≤ mbCount nSub s))),
      ("As 3 disciplinas com maior número de menções de INSUFICIENTE", .str (top3Str t)),
      (dispersionLabel, .str (dispersionStr t)) ]

/-- The upload handler's processing of one grid (lines 203-224 of
`app.py`): extraction, then statistics; any error from extraction
propagates untouched to the single outermost `except` handler. -/
def uploadPipeline (grid : List (List Cell)) :
    Except String (StructTable × List (String × StatValue)) := do
  let t ← process_student_grades grid
  pure (t, calculate_class_statistics t)

/-- Column `i` is a column the mapping pass registers for subject `s`:
the flag row holds the sentinel there and the forward-filled label at
that point is `s`, nonempty after stripping. -/
def flaggedCol (sr cr : List Cell) (s : String) (i : Nat) : Prop :=
  getCell cr i = Cell.str "CF" ∧ ffLabelUpTo sr (i + 1) = some s ∧ s ≠ ""

instance (sr cr : List Cell) (s : String) (i : Nat) :
    Decidable (flaggedCol sr cr s i) := by
  unfold flaggedCol
  infer_instance

/-- The highest flagged column for subject `s` below `n`, if any. -/
def lastFlagged (sr cr : List Cell) (s : String) : Nat → Option Nat
  | 0 => none
  | n + 1 => if flaggedCol sr cr s n then some n else lastFlagged sr cr s n

/-- The column map the extractor builds for a given grid. -/
def gridColMap (grid : List (List Cell)) : List (String × Nat) :=
  buildColMap (grid.getD SUBJECT_ROW_IDX []) (grid.getD CF_ROW_IDX [])
    (gridWidth grid)

/-- The accepted student records of a grid. -/
def gridStudents (grid : List (List Cell)) : List Student :=
  extractRows (gridColMap grid) (grid.drop DATA_START_IDX)

/-- Fixed order of the ten metric labels emitted on a non-empty table. -/
def statLabels : List String :=
  [ "N.º de alunos da Turma",
    "N.º de alunos não avaliados",
    "N.º de alunos SEM menções inferiores a Suficiente",
    "N.º de alunos com TRÊS OU MAIS menções inferiores a Suficiente",
    "N.º TOTAL de alunos com menções inferiores a Suficiente",
    portMatLabel,
    "N.º de alunos com TRÊS OU MAIS menções de MUITO BOM",
    "N.º TOTAL de alunos com menções de MUITO BOM",
    "As 3 disciplinas com maior número de menções de INSUFICIENTE",
    dispersionLabel ]

/-- A 14-row, 1-column grid: the header rows exist, the single data row
has a missing identifier (so zero rows are accepted), yet `row.iloc[2]`
is read before the stop test and raises. -/
def c4grid : List (List Cell) :=
  List.replicate 13 [Cell.str "1"] ++ [[Cell.empty]]

/-- The scenario grid of the spec: subject `"PORT."` flagged at column 3,
`"Mat"` flagged at column 5, one student row `(1, "Ana")` with
`"Suficiente"` at column 3 and `"Insuficiente"` at column 5. -/
def c6grid : List (List Cell) :=
  List.replicate 11 [] ++
    [ [Cell.empty, Cell.empty, Cell.empty, Cell.str "PORT.", Cell.empty,
        Cell.str "Mat"],
      [Cell.empty, Cell.empty, Cell.empty, Cell.str "CF", Cell.empty,
        Cell.str "CF"],
      [Cell.num 1, Cell.empty, Cell.str "Ana", Cell.str "Suficiente",
        Cell.empty, Cell.str "Insuficiente"] ]

/-- The single record extracted from `c6grid`: PORT. normalizes to 3,
Mat to 2. -/
def c6student : Student :=
  ⟨Cell.num 1, Cell.str "Ana", [some 3, some 2]⟩

/-- The structured table extracted from `c6grid`. -/
def c6table : StructTable :=
  ⟨["PORT.", "Mat"], [c6student]⟩

/-- A one-subject table whose evaluated grades are `[2, 5, 3]`, the
amplitude scenario of the spec. -/
def c7table : StructTable :=
  ⟨["S"],
    [ ⟨Cell.num 1, Cell.str "A", [some 2]⟩,
      ⟨Cell.num 2, Cell.str "B", [some 5]⟩,
      ⟨Cell.num 3, Cell.str "C", [some 3]⟩ ]⟩

/-! ### Helper lemmas about the column-mapping pass -/

/-- The loop's `current_subject` after the columns `[0, n)` is exactly the
forward-filled label. -/
lemma colMapUpTo_fst (sr cr : List Cell) :
    ∀ n, (colMapUpTo sr cr n).1 = ffLabelUpTo sr n
  | 0 => rfl
  | n + 1 => by
      simp only [colMapUpTo, colMapStep, ffLabelUpTo]
      rw [colMapUpTo_fst sr cr n]

/-- Membership after a Python-dict insert: either an old pair or the new
one. -/
lemma mem_dictInsert {m : List (String × Nat)} {k : String} {v : Nat}
    {p : String × Nat} (h : p ∈ dictInsert m k v) : p ∈ m ∨ p = (k, v) := by
  unfold dictInsert at h
  by_cases hc : m.any (fun q => q.1 = k)
  · rw [if_pos hc] at h
    rcases List.mem_map.1 h with ⟨q, hq, heq⟩
    by_cases hk : q.1 = k
    · right
      rw [if_pos hk] at heq
      exact heq.symm
    · left
      rw [if_neg hk] at heq
      exact heq ▸ hq
  · rw [if_neg hc] at h
    rcases List.mem_append.1 h with h1 | h1
    · exact Or.inl h1
    · right
      simpa using h1

/-- Every pair of the column map records a `"CF"`-flagged column whose
forward-filled subject label is the pair's key, nonempty after stripping. -/
lemma colMap_mem_spec (sr cr : List Cell) :
    ∀ n, ∀ s i, (s, i) ∈ (colMapUpTo sr cr n).2 →
      getCell cr i = Cell.str "CF" ∧ ffLabelUpTo sr (i + 1) = some s ∧
        s ≠ "" ∧ i < n := by
  intro n
  induction n with
  | zero => intro s i h; simp [colMapUpTo] at h
  | succ n ih =>
      intro s i h
      have hcur : (colMapUpTo sr cr n).1 = ffLabelUpTo sr n := colMapUpTo_fst sr cr n
      have hff : (if (getCell sr n).isNA then (colMapUpTo sr cr n).1
          else some (cellLabel (getCell sr n))) = ffLabelUpTo sr (n + 1) := by
        rw [hcur]; simp [ffLabelUpTo]
      simp only [colMapUpTo, colMapStep] at h
      by_cases hc : getCell cr n = Cell.str "CF" ∧
          ((if (getCell sr n).isNA then (colMapUpTo sr cr n).1
            else some (cellLabel (getCell sr n))).getD "") ≠ ""
      · rw [if_pos hc] at h
        rcases mem_dictInsert h with h1 | h1
        · rcases ih s i h1 with ⟨h1, h2, h3, h4⟩
          exact ⟨h1, h2, h3, Nat.lt_succ_of_lt h4⟩
        · have hs : s = (if (getCell sr n).isNA then (colMapUpTo sr cr n).1
              else some (cellLabel (getCell sr n))).getD "" := congrArg Prod.fst h1
          have hi : i = n := congrArg Prod.snd h1
          rw [hi]
          refine ⟨hc.1, ?_, by rw [hs]; exact hc.2, Nat.lt_succ_self n⟩
          rw [← hff]
          rcases hcase : (if (getCell sr n).isNA then (colMapUpTo sr cr n).1
              else some (cellLabel (getCell sr n))) with _ | s0
          · exfalso
            have hb := hc.2
            rw [hcase] at hb
            exact hb rfl
          · rw [hs, hcase]
            rfl
      · rw [if_neg hc] at h
        rcases ih s i h with ⟨h1, h2, h3, h4⟩
        exact ⟨h1, h2, h3, Nat.lt_succ_of_lt h4⟩

/-- With no `"CF"` cell anywhere in the flag row, the column map stays
empty. -/
lemma colMap_nil_of_no_cf (sr cr : List Cell)
    (h : ∀ i, getCell cr i ≠ Cell.str "CF") :
    ∀ n, (colMapUpTo sr cr n).2 = [] := by
  intro n
  induction n with
  | zero => rfl
  | succ n ih => simp [colMapUpTo, colMapStep, ih, h n]

/-- A cell of the flag row read positionally is either a member of the
row or the padding marker. -/
lemma getCell_mem_or_empty (row : List Cell) (i : Nat) :
    getCell row i ∈ row ∨ getCell row i = Cell.empty := by
  unfold getCell
  rcases h : row[i]? with _ | c
  · right
    simp [List.getD, h]
  · left
    have := List.getElem?_mem h
    simpa [List.getD, h] using this

/-! ### Helper lemmas about row extraction -/

/-- The extraction loop takes exactly the longest prefix of non-stop rows
and turns each into a record. -/
lemma extractRows_eq_takeWhile (colMap : List (String × Nat)) :
    ∀ rows : List (List Cell),
      extractRows colMap rows =
        (rows.takeWhile (fun r => !stopRow r)).map (mkStudent colMap)
  | [] => rfl
  | row :: rest => by
      rcases h : stopRow row with _ | _
      · simp [extractRows, List.takeWhile, h,
          extractRows_eq_takeWhile colMap rest]
      · simp [extractRows, List.takeWhile, h]

/-- Unfolding of the stop test as a predicate on the identifier and name
cells. -/
lemma stopRow_iff (row : List Cell) :
    stopRow row = true ↔
      (getCell row 0 = Cell.empty ∨
        ∃ s, getCell row 0 = Cell.str s ∧ pyIsdigit s = false ∧
          getCell row 2 = Cell.empty) := by
  unfold stopRow
  rcases h0 : getCell row 0 with q | s | _
  · simp [Cell.isNA]
  · rcases hd : pyIsdigit s with _ | _
    · rcases h2 : getCell row 2 with q2 | s2 | _ <;>
        simp [Cell.isNA, hd, h2]
    · simp [Cell.isNA, hd]
  · simp [Cell.isNA]

/-! ### Dictionary-lookup lemmas and the last-flag characterization -/

/-- Overwriting a present key: the rewritten list resolves the key to the
fresh value. -/
lemma find?_mapInsert_self (m : List (String × Nat)) (k : String) (v : Nat)
    (hc : m.any (fun p => p.1 = k) = true) :
    (m.map (fun p => if p.1 = k then (k, v) else p)).find?
      (fun p => p.1 = k) = some (k, v) := by
  induction m with
  | nil => simp at hc
  | cons q m ih =>
      rw [List.map_cons]
      by_cases hk : q.1 = k
      · rw [if_pos hk, List.find?_cons_of_pos _ (by simp)]
      · rw [if_neg hk, List.find?_cons_of_neg _ (by simpa using hk)]
        exact ih (by simpa [hk] using hc)

/-- Appending a fresh key: the lookup finds the appended pair when the key
occurs nowhere in the prefix. -/
lemma find?_append_self (m : List (String × Nat)) (k : String) (v : Nat)
    (hc : ¬ m.any (fun p => p.1 = k) = true) :
    (m ++ [(k, v)]).find? (fun p => p.1 = k) = some (k, v) := by
  induction m with
  | nil => simp [List.find?]
  | cons q m ih =>
      have hk : ¬ q.1 = k := by
        intro hq
        exact hc (by simp [List.any_cons, hq])
      rw [List.cons_append, List.find?_cons_of_neg _ (by simpa using hk)]
      exact ih (fun hm => hc (by simp [List.any_cons, hm]))

/-- Looking up a freshly inserted key yields the fresh value. -/
lemma dictLookup_insert_self (m : List (String × Nat)) (k : String) (v : Nat) :
    dictLookup (dictInsert m k v) k = some v := by
  unfold dictInsert dictLookup
  by_cases hc : m.any (fun p => p.1 = k)
  · rw [if_pos hc, find?_mapInsert_self m k v hc]
    rfl
  · rw [if_neg hc, find?_append_self m k v hc]
    rfl

/-- Overwriting one key does not disturb the resolution of other keys. -/
lemma find?_mapInsert_ne (m : List (String × Nat)) (k k' : String) (v : Nat)
    (h : k' ≠ k) :
    (m.map (fun p => if p.1 = k then (k, v) else p)).find?
      (fun p => p.1 = k') = m.find? (fun p => p.1 = k') := by
  induction m with
  | nil => rfl
  | cons q m ih =>
      rw [List.map_cons]
      by_cases hk : q.1 = k
      · have hq' : ¬ q.1 = k' := by rw [hk]; exact fun hh => h hh.symm
        rw [if_pos hk,
          List.find?_cons_of_neg _ (by simpa using fun hh => h hh.symm),
          List.find?_cons_of_neg _ (by simpa using hq'), ih]
      · rw [if_neg hk]
        by_cases hq' : q.1 = k'
        · rw [List.find?_cons_of_pos _ (by simpa using hq'),
            List.find?_cons_of_pos _ (by simpa using hq')]
        · rw [List.find?_cons_of_neg _ (by simpa using hq'),
            List.find?_cons_of_neg _ (by simpa using hq'), ih]

/-- Inserting under one key leaves lookups of any other key unchanged. -/
lemma dictLookup_insert_ne (m : List (String × Nat)) (k k' : String) (v : Nat)
    (h : k' ≠ k) : dictLookup (dictInsert m k v) k' = dictLookup m k' := by
  unfold dictInsert dictLookup
  by_cases hc : m.any (fun p => p.1 = k)
  · rw [if_pos hc, find?_mapInsert_ne m k k' v h]
  · rw [if_neg hc, List.find?_append]
    rcases hf : m.find? (fun p => p.1 = k') with _ | p
    · simp [hf, Ne.symm h]
    · simp [hf]

/-- The column-map lookup for a subject is exactly its highest flagged
column. -/
lemma dictLookup_colMap (sr cr : List Cell) (s : String) :
    ∀ n, dictLookup (colMapUpTo sr cr n).2 s = lastFlagged sr cr s n := by
  intro n
  induction n with
  | zero => rfl
  | succ n ih =>
      have hff : (if (getCell sr n).isNA then (colMapUpTo sr cr n).1
          else some (cellLabel (getCell sr n))) = ffLabelUpTo sr (n + 1) := by
        rw [colMapUpTo_fst sr cr n]; simp [ffLabelUpTo]
      simp only [colMapUpTo, colMapStep, lastFlagged]
      by_cases hc : getCell cr n = Cell.str "CF" ∧
          ((if (getCell sr n).isNA then (colMapUpTo sr cr n).1
            else some (cellLabel (getCell sr n))).getD "") ≠ ""
      · rw [if_pos hc]
        rcases hcase : (if (getCell sr n).isNA then (colMapUpTo sr cr n).1
            else some (cellLabel (getCell sr n))) with _ | s0
        · exfalso
          have hb := hc.2
          rw [hcase] at hb
          exact hb rfl
        · have hkey : (if (getCell sr n).isNA then (colMapUpTo sr cr n).1
              else some (cellLabel (getCell sr n))).getD "" = s0 := by rw [hcase]; rfl
          simp only [Option.getD_some]
          have hs0ne : s0 ≠ "" := hkey ▸ hc.2
          by_cases hss : s = s0
          · have hfl : flaggedCol sr cr s n :=
              ⟨hc.1, by rw [← hff, hcase, hss], hss ▸ hs0ne⟩
            rw [if_pos hfl, hss, dictLookup_insert_self]
          · have hnfl : ¬ flaggedCol sr cr s n := by
              intro hfl
              have := hfl.2.1
              rw [← hff, hcase] at this
              exact hss (Option.some.inj this).symm
            rw [if_neg hnfl, dictLookup_insert_ne _ _ _ _ hss, ih]
      · rw [if_neg hc]
        have hnfl : ¬ flaggedCol sr cr s n := by
          intro hfl
          apply hc
          refine ⟨hfl.1, ?_⟩
          rw [hff, hfl.2.1]
          exact hfl.2.2
        rw [if_neg hnfl, ih]

/-- A later flagged column forces the last flagged column to be at least
as high. -/
lemma lastFlagged_ge (sr cr : List Cell) (s : String) (j : Nat)
    (hj : flaggedCol sr cr s j) :
    ∀ n, j < n → ∃ k, lastFlagged sr cr s n = some k ∧ j ≤ k ∧ flaggedCol sr cr s k := by
  intro n
  induction n with
  | zero => intro h; exact absurd h (Nat.not_lt_zero j)
  | succ n ih =>
      intro hlt
      by_cases hfl : flaggedCol sr cr s n
      · exact ⟨n, by simp [lastFlagged, hfl], Nat.lt_succ_iff.1 hlt, hfl⟩
      · have hjn : j < n := by
          rcases Nat.lt_succ_iff_lt_or_eq.1 hlt with h | h
          · exact h
          · exact absurd (h ▸ hj) hfl
        rcases ih hjn with ⟨k, h1, h2, h3⟩
        exact ⟨k, by simp [lastFlagged, hfl, h1], h2, h3⟩

/-- Keys of the column map never repeat. -/
lemma dictInsert_keys_nodup (m : List (String × Nat)) (k : String) (v : Nat)
    (h : (m.map Prod.fst).Nodup) : ((dictInsert m k v).map Prod.fst).Nodup := by
  unfold dictInsert
  by_cases hc : m.any (fun p => p.1 = k)
  · rw [if_pos hc]
    have : (m.map (fun p => if p.1 = k then (k, v) else p)).map Prod.fst
        = m.map Prod.fst := by
      rw [List.map_map]
      apply List.map_congr_left
      intro p _
      by_cases hp : p.1 = k
      · simp [hp]
      · simp [hp]
    rw [this]
    exact h
  · rw [if_neg hc]
    have hk : k ∉ m.map Prod.fst := by
      intro hmem
      rcases List.mem_map.1 hmem with ⟨p, hp, hpk⟩
      exact hc (List.any_eq_true.2 ⟨p, hp, by simpa using hpk⟩)
    simp [List.nodup_append, h, hk]

/-- Nodup keys along the whole column-mapping pass. -/
lemma colMap_keys_nodup (sr cr : List Cell) :
    ∀ n, (((colMapUpTo sr cr n).2).map Prod.fst).Nodup := by
  intro n
  induction n with
  | zero => simp [colMapUpTo]
  | succ n ih =>
      simp only [colMapUpTo, colMapStep]
      by_cases hc : getCell cr n = Cell.str "CF" ∧
          ((if (getCell sr n).isNA then (colMapUpTo sr cr n).1
            else some (cellLabel (getCell sr n))).getD "") ≠ ""
      · rw [if_pos hc]
        exact dictInsert_keys_nodup _ _ _ ih
      · rw [if_neg hc]
        exact ih

/-- With nodup keys, membership determines the lookup. -/
lemma dictLookup_of_mem (m : List (String × Nat)) (s : String) (i : Nat)
    (hnd : (m.map Prod.fst).Nodup) (hm : (s, i) ∈ m) :
    dictLookup m s = some i := by
  induction m with
  | nil => simp at hm
  | cons q m ih =>
      rw [List.map_cons] at hnd
      rcases List.nodup_cons.1 hnd with ⟨hq1, hnd'⟩
      rcases List.mem_cons.1 hm with h | h
      · rw [← h]
        simp [dictLookup, List.find?]
      · have hq : ¬ q.1 = s := by
          intro hqs
          apply hq1
          rw [hqs]
          exact List.mem_map.2 ⟨(s, i), h, rfl⟩
        simpa [dictLookup, List.find?, hq] using ih hnd' h

/-! ### Characterizations of the extractor and the statistics engine -/

/-- Unfolding of the extractor as a cascade of its three outcomes. -/
lemma process_eq (grid : List (List Cell)) :
    process_student_grades grid =
      if grid.length < DATA_START_IDX then .error indexErrorMsg
      else if gridWidth grid < 3 ∧ grid.drop DATA_START_IDX ≠ [] then
        .error indexErrorMsg
      else if gridStudents grid = [] then .ok ⟨[], []⟩
      else .ok ⟨(gridColMap grid).map Prod.fst, gridStudents grid⟩ := rfl

/-- Whenever the extractor succeeds, its rows are the records of the
longest prefix of non-stop data rows, in source order. -/
lemma process_ok_rows (grid : List (List Cell)) (tbl : StructTable)
    (h : process_student_grades grid = .ok tbl) :
    tbl.rows = ((grid.drop DATA_START_IDX).takeWhile (fun r => !stopRow r)).map
      (mkStudent (gridColMap grid)) := by
  rw [process_eq] at h
  rw [← extractRows_eq_takeWhile]
  split at h
  · exact absurd h (by simp)
  · split at h
    · exact absurd h (by simp)
    · split at h
      · rename_i hnil
        have heq := Except.ok.inj h
        rw [← heq]
        exact hnil.symm
      · have heq := Except.ok.inj h
        rw [← heq]
        rfl

/-- Whenever the extractor succeeds, the subject columns are the
column-map keys in insertion order (and none at all when no student row
was accepted, matching the fully empty frame `pd.DataFrame([])`). -/
lemma process_ok_subjects (grid : List (List Cell)) (tbl : StructTable)
    (h : process_student_grades grid = .ok tbl) :
    tbl.subjects = [] ∨ tbl.subjects = (gridColMap grid).map Prod.fst := by
  rw [process_eq] at h
  split at h
  · exact absurd h (by simp)
  · split at h
    · exact absurd h (by simp)
    · split at h
      · left
        have := Except.ok.inj h
        rw [← this]
      · right
        have := Except.ok.inj h
        rw [← this]

/-- On a non-empty table the statistics mapping carries exactly the ten
fixed labels, in order. -/
lemma calc_labels (t : StructTable) (hne : t.rows ≠ []) :
    (calculate_class_statistics t).map Prod.fst = statLabels := by
  unfold calculate_class_statistics
  rw [if_neg (by simpa [List.isEmpty_iff] using hne)]
  rfl

/-- On a non-empty table, the dispersion entry reports `dispersionStr`. -/
lemma calc_dispersion_mem (t : StructTable) (hne : t.rows ≠ []) :
    (dispersionLabel, StatValue.str (dispersionStr t)) ∈
      calculate_class_statistics t := by
  unfold calculate_class_statistics
  rw [if_neg (by simpa [List.isEmpty_iff] using hne)]
  simp

/-- On a non-empty table with both named columns, the PORT./Mat metric is
the count of evaluated students negative in both. -/
lemma calc_portmat_mem_present (t : StructTable) (hne : t.rows ≠ [])
    (hcols : "PORT." ∈ t.subjects ∧ "Mat" ∈ t.subjects) :
    (portMatLabel, StatValue.nat ((evaluatedRows t).countP (fun s =>
        ltThree (gradeAt s (subjIdx t "PORT.")) &&
        ltThree (gradeAt s (subjIdx t "Mat"))))) ∈
      calculate_class_statistics t := by
  unfold calculate_class_statistics
  rw [if_neg (by simpa [List.isEmpty_iff] using hne)]
  simp [if_pos hcols]

/-- On a non-empty table missing either named column, the PORT./Mat
metric degrades to the fixed placeholder text. -/
lemma calc_portmat_mem_absent (t : StructTable) (hne : t.rows ≠ [])
    (hcols : ¬ ("PORT." ∈ t.subjects ∧ "Mat" ∈ t.subjects)) :
    (portMatLabel, StatValue.str "N/A (Colunas não encontradas)") ∈
      calculate_class_statistics t := by
  unfold calculate_class_statistics
  rw [if_neg (by simpa [List.isEmpty_iff] using hne)]
  simp [if_neg hcols]

/-! ### Amplitude and dispersion lemmas -/

/-- Amplitude is maximum minus minimum of the non-missing evaluated
grades, missing when there are none. -/
lemma amplitudeAt_minmax (t : StructTable) (j : Nat) :
    amplitudeAt t j =
      match (colVals t j).max?, (colVals t j).min? with
      | some hi, some lo => some (hi - lo)
      | _, _ => none := by
  rcases h : colVals t j with _ | ⟨v, vs⟩ <;>
    simp [amplitudeAt, h, List.max?, List.min?]

/-- When nobody is evaluated, every subject column has no values. -/
lemma colVals_nil (t : StructTable) (he : evaluatedRows t = []) (j : Nat) :
    colVals t j = [] := by
  unfold colVals
  rw [he]
  rfl

/-- When nobody is evaluated, every amplitude is missing. -/
lemma amplitudeAt_none (t : StructTable) (he : evaluatedRows t = []) (j : Nat) :
    amplitudeAt t j = none := by
  unfold amplitudeAt
  rw [colVals_nil t he j]

/-- The filter `∀ students all-missing` empties the evaluated set. -/
lemma evaluatedRows_nil (t : StructTable)
    (hmiss : ∀ st ∈ t.rows, notEvaluated t.subjects.length st = true) :
    evaluatedRows t = [] := by
  unfold evaluatedRows
  rw [List.filter_eq_nil_iff]
  intro st hst
  simp [hmiss st hst]

/-- With all amplitudes missing, the series maximum is `NaN`. -/
lemma seriesMax_none (t : StructTable) (he : evaluatedRows t = []) :
    seriesMax ((amplitudes t).map Prod.snd) = none := by
  have hnil : ((amplitudes t).map Prod.snd).filterMap id = [] := by
    rw [List.filterMap_eq_nil_iff]
    intro a ha
    rcases List.mem_map.1 ha with ⟨p, hp, hpx⟩
    rcases List.mem_map.1 hp with ⟨j, _, hjp⟩
    rw [← hpx, ← hjp]
    simpa using amplitudeAt_none t he j
  unfold seriesMax
  rw [hnil]

/-- With all amplitudes missing, no subject matches the maximum (pandas
`NaN == NaN` is false). -/
lemma dispersion_filter_nil (t : StructTable) (he : evaluatedRows t = [])
    (x : Option ℚ) :
    (amplitudes t).filter (fun p => optEq p.2 x) = [] := by
  rw [List.filter_eq_nil_iff]
  intro p hp
  rcases List.mem_map.1 hp with ⟨j, _, hjp⟩
  have hsnd : p.2 = none := by
    rw [← hjp]
    simpa using amplitudeAt_none t he j
  rw [hsnd]
  rcases x with _ | q <;> simp [optEq]

/-- The dispersion string of a table with subjects but no evaluated
student: empty name list, `nan` amplitude — and not the `"N/A"` branch. -/
lemma dispersionStr_all_missing (t : StructTable) (hsub : t.subjects ≠ [])
    (he : evaluatedRows t = []) :
    dispersionStr t = " (Amplitude: nan)" := by
  unfold dispersionStr
  rw [if_neg (by simpa [List.isEmpty_iff] using hsub)]
  simp only [seriesMax_none t he, dispersion_filter_nil t he]
  rfl

/-! ### Claim theorems -/

/-- C1. Grade normalization is a total deterministic function on cell
values: after trimming textual values, `"Insuficiente"` maps to 2,
`"Suficiente"` to 3, `"Bom"` to 4, `"Muito Bom"` to 5, and `"--"` to
missing; every other value is coerced to its floating-point number
(numbers stay themselves, missing stays missing), and if coercion fails
the result is missing, never an error. -/
theorem C1_grade_normalization :
    (∀ s : String, pyStrip s = "Insuficiente" → normalizeGrade (Cell.str s) = some 2) ∧
    (∀ s : String, pyStrip s = "Suficiente" → normalizeGrade (Cell.str s) = some 3) ∧
    (∀ s : String, pyStrip s = "Bom" → normalizeGrade (Cell.str s) = some 4) ∧
    (∀ s : String, pyStrip s = "Muito Bom" → normalizeGrade (Cell.str s) = some 5) ∧
    (∀ s : String, pyStrip s = "--" → normalizeGrade (Cell.str s) = none) ∧
    (∀ s : String, pyStrip s ≠ "Insuficiente" → pyStrip s ≠ "Suficiente" →
      pyStrip s ≠ "Bom" → pyStrip s ≠ "Muito Bom" → pyStrip s ≠ "--" →
      normalizeGrade (Cell.str s) = pyFloat? (pyStrip s)) ∧
    (∀ q : ℚ, normalizeGrade (Cell.num q) = some q) ∧
    (normalizeGrade Cell.empty = none) := by
  refine ⟨?_, ?_, ?_, ?_, ?_, ?_, fun q => rfl, rfl⟩
  · intro s h
    simp [normalizeGrade, h]
  · intro s h
    simp [normalizeGrade, h]
  · intro s h
    simp [normalizeGrade, h]
  · intro s h
    simp [normalizeGrade, h]
  · intro s h
    simp [normalizeGrade, h]
  · intro s h1 h2 h3 h4 h5
    simp [normalizeGrade, h1, h2, h3, h4, h5]

/-- Witness for C1 at concrete cells: a padded categorical label, a
parseable number, and an unparseable string. -/
theorem C1_grade_normalization_witness :
    normalizeGrade (Cell.str " Muito Bom ") = some 5 ∧
    normalizeGrade (Cell.str " 3.5") = some (mkRat 7 2) ∧
    normalizeGrade (Cell.str "N/A") = none := by
  refine ⟨?_, ?_, ?_⟩
  · exact C1_grade_normalization.2.2.2.1 " Muito Bom " (by decide)
  · have h := C1_grade_normalization.2.2.2.2.2.1 " 3.5"
      (by decide) (by decide) (by decide) (by decide) (by decide)
    rw [h]
    decide
  · have h := C1_grade_normalization.2.2.2.2.2.1 "N/A"
      (by decide) (by decide) (by decide) (by decide) (by decide)
    rw [h]
    decide

/-- C2. A subject is registered in the column map only at a column where
the flag row (row 12) holds the sentinel `"CF"` and a forward-filled
subject label from row 11 is current (truthy); consequently, for every
grid whose row 12 contains no `"CF"` cells, the column map is empty and
every extracted student record carries only the identifier and name
fields (its grade list is empty). -/
theorem C2_colmap_cf_invariant :
    (∀ sr cr width s i, (s, i) ∈ buildColMap sr cr width →
        getCell cr i = Cell.str "CF" ∧ ffLabelUpTo sr (i + 1) = some s ∧
          s ≠ "" ∧ i < width) ∧
    (∀ grid : List (List Cell),
        (∀ c ∈ grid.getD CF_ROW_IDX [], c ≠ Cell.str "CF") →
        gridColMap grid = [] ∧
        ∀ tbl, process_student_grades grid = .ok tbl →
          tbl.subjects = [] ∧ ∀ st ∈ tbl.rows, st.grades = []) := by
  constructor
  · exact colMap_mem_spec
  · intro grid hcf
    have hnone : ∀ i, getCell (grid.getD CF_ROW_IDX []) i ≠ Cell.str "CF" := by
      intro i hc
      rcases getCell_mem_or_empty (grid.getD CF_ROW_IDX []) i with hm | hm
      · exact hcf _ hm hc
      · rw [hm] at hc
        exact Cell.noConfusion hc
    have hmap : gridColMap grid = [] :=
      colMap_nil_of_no_cf _ _ hnone _
    refine ⟨hmap, ?_⟩
    intro tbl htbl
    constructor
    · rcases process_ok_subjects grid tbl htbl with h | h
      · exact h
      · rw [h, hmap]
        rfl
    · intro st hst
      rw [process_ok_rows grid tbl htbl] at hst
      rcases List.mem_map.1 hst with ⟨row, _, hrow⟩
      rw [← hrow]
      simp [mkStudent, hmap]

/-- Witness for C2: a 13-row grid whose row 12 has no `"CF"` cell. -/
theorem C2_colmap_cf_invariant_witness :
    gridColMap (List.replicate 13 [Cell.str "x"]) = [] ∧
    (StructTable.mk [] []).subjects = [] := by
  have h := C2_colmap_cf_invariant.2 (List.replicate 13 [Cell.str "x"])
    (by decide)
  exact ⟨h.1, (h.2 ⟨[], []⟩ (by rfl)).1⟩

/-- C3. Row extraction iterates the data rows in order from row index 13
and stops — excluding the current and every later row — exactly when the
identifier (column 0) is missing, or when it is a textual value that is
not purely digits and the name (column 2) is missing; a non-digit
textual identifier with a non-empty name is accepted, and rows below a
stop row are never read. -/
theorem C3_row_extraction_stop :
    (∀ colMap rows, extractRows colMap rows =
        (rows.takeWhile (fun r => !stopRow r)).map (mkStudent colMap)) ∧
    (∀ row, stopRow row = true ↔
        (getCell row 0 = Cell.empty ∨
          ∃ s, getCell row 0 = Cell.str s ∧ pyIsdigit s = false ∧
            getCell row 2 = Cell.empty)) ∧
    (∀ grid tbl, process_student_grades grid = .ok tbl →
        tbl.rows =
          ((grid.drop DATA_START_IDX).takeWhile (fun r => !stopRow r)).map
            (mkStudent (gridColMap grid))) :=
  ⟨extractRows_eq_takeWhile, stopRow_iff, process_ok_rows⟩

/-- Witness for C3: a textual summary label with an empty name stops; the
same label with a name present does not. -/
theorem C3_row_extraction_stop_witness :
    stopRow [Cell.str "Média", Cell.empty, Cell.empty] = true ∧
    stopRow [Cell.str "Média", Cell.empty, Cell.str "Ana"] = false := by
  constructor
  · exact (C3_row_extraction_stop.2.1 _).mpr
      (Or.inr ⟨"Média", rfl, by decide, rfl⟩)
  · decide

/-- C4, counterexample. A grid narrower than 3 columns whose single data
row has a missing identifier accepts zero data rows, yet the extractor
raises (the name cell is read positionally before the stop test) instead
of returning an empty structured table. -/
theorem C4_counterexample :
    ((c4grid.drop DATA_START_IDX).takeWhile (fun r => !stopRow r)) = [] ∧
    process_student_grades c4grid = .error indexErrorMsg :=
  ⟨rfl, rfl⟩

/-- C4, amended: for every grid that reaches the extraction loop safely
(at least 13 rows, and at least 3 columns or no data rows at all) and
accepts zero data rows, the extractor returns the empty structured table
and the statistics engine on it returns exactly the one explanatory
error-indicator entry and computes no other metric. -/
theorem C4_empty_table_stats (grid : List (List Cell))
    (hlen : DATA_START_IDX ≤ grid.length)
    (hw : 3 ≤ gridWidth grid ∨ grid.drop DATA_START_IDX = [])
    (hstop : (grid.drop DATA_START_IDX).takeWhile (fun r => !stopRow r) = []) :
    process_student_grades grid = .ok ⟨[], []⟩ ∧
    calculate_class_statistics ⟨[], []⟩ =
      [("Erro", StatValue.str "Não foram encontrados dados de alunos.")] ∧
    (calculate_class_statistics ⟨[], []⟩).length = 1 := by
  have hstudents : gridStudents grid = [] := by
    unfold gridStudents
    rw [extractRows_eq_takeWhile, hstop]
    rfl
  refine ⟨?_, rfl, rfl⟩
  rw [process_eq, if_neg (Nat.not_lt.mpr hlen)]
  have hcond : ¬ (gridWidth grid < 3 ∧ grid.drop DATA_START_IDX ≠ []) := by
    rcases hw with h | h
    · exact fun hc => Nat.not_lt.mpr h hc.1
    · exact fun hc => hc.2 h
  rw [if_neg hcond, if_pos hstudents]

/-- Witness for the amended C4: a 13-row grid with no data rows. -/
theorem C4_empty_table_stats_witness :
    process_student_grades (List.replicate 13 [Cell.str "1"]) = .ok ⟨[], []⟩ :=
  (C4_empty_table_stats (List.replicate 13 [Cell.str "1"])
    (by decide) (Or.inr rfl) rfl).1

/-- C5. For every non-empty table the result mapping carries the ten
fixed labels in order; if the columns literally named `"PORT."` and
`"Mat"` are both present, the combined metric is the count of evaluated
students below 3 in both; otherwise it degrades to the descriptive
placeholder string while everything else is still emitted. -/
theorem C5_port_mat_metric (t : StructTable) (hne : t.rows ≠ []) :
    (calculate_class_statistics t).map Prod.fst = statLabels ∧
    statLabels.length = 10 ∧
    (("PORT." ∈ t.subjects ∧ "Mat" ∈ t.subjects) →
      (portMatLabel, StatValue.nat ((evaluatedRows t).countP (fun s =>
          ltThree (gradeAt s (subjIdx t "PORT.")) &&
          ltThree (gradeAt s (subjIdx t "Mat"))))) ∈
        calculate_class_statistics t) ∧
    (¬ ("PORT." ∈ t.subjects ∧ "Mat" ∈ t.subjects) →
      (portMatLabel, StatValue.str "N/A (Colunas não encontradas)") ∈
        calculate_class_statistics t) :=
  ⟨calc_labels t hne, rfl, calc_portmat_mem_present t hne,
    calc_portmat_mem_absent t hne⟩

/-- Witness for C5: a table missing `"Mat"` degrades to the placeholder;
a table with both columns yields a numeric count. -/
theorem C5_port_mat_metric_witness :
    ((portMatLabel, StatValue.str "N/A (Colunas não encontradas)") ∈
      calculate_class_statistics
        ⟨["X"], [⟨Cell.num 1, Cell.str "A", [some 2]⟩]⟩) ∧
    ∃ v : Nat, (portMatLabel, StatValue.nat v) ∈
      calculate_class_statistics
        ⟨["PORT.", "Mat"], [⟨Cell.num 1, Cell.str "A", [some 2, some 2]⟩]⟩ := by
  constructor
  · exact (C5_port_mat_metric _ (by decide)).2.2.2 (by decide)
  · exact ⟨_, (C5_port_mat_metric _ (by decide)).2.2.1 (by decide)⟩

/-- C6, counterexample. In the spec's scenario grid the extracted grades
are PORT. ↦ 3 and Mat ↦ 2, so the student's negative-mention count is 1
(only Mat is below 3), not 2 as the claim states. -/
theorem C6_counterexample :
    process_student_grades c6grid = .ok c6table ∧
    negCount c6table.subjects.length c6student ≠ 2 := by
  exact ⟨rfl, by decide⟩

/-- C6, amended: same scenario with the correct per-student negative
count of 1 — extracted grades {Mat ↦ 2, PORT. ↦ 3}, any-negative count
1, PORT.-and-Mat-negative count 0. -/
theorem C6_scenario :
    process_student_grades c6grid = .ok c6table ∧
    c6table.subjects = ["PORT.", "Mat"] ∧
    c6student.grades = [some 3, some 2] ∧
    negCount c6table.subjects.length c6student = 1 ∧
    ("N.º TOTAL de alunos com menções inferiores a Suficiente",
      StatValue.nat 1) ∈ calculate_class_statistics c6table ∧
    (portMatLabel, StatValue.nat 0) ∈ calculate_class_statistics c6table := by
  refine ⟨rfl, rfl, rfl, by decide, by decide, by decide⟩

/-- C7. The dispersion metric reports, on a table with subject columns,
every subject whose amplitude equals the maximum amplitude of the
series, comma-joined and followed by that amplitude value; on a table
with no subject columns it reports `"N/A"`; and each subject's amplitude
is maximum minus minimum over the evaluated non-missing grades of the
column, missing when there are none. -/
theorem C7_max_dispersion (t : StructTable) (hne : t.rows ≠ []) :
    (t.subjects = [] →
      (dispersionLabel, StatValue.str "N/A") ∈ calculate_class_statistics t) ∧
    (t.subjects ≠ [] →
      (dispersionLabel, StatValue.str (String.intercalate ", "
          (((amplitudes t).filter (fun p =>
              optEq p.2 (seriesMax ((amplitudes t).map Prod.snd)))).map Prod.fst)
        ++ " (Amplitude: "
        ++ pyOptRepr (seriesMax ((amplitudes t).map Prod.snd)) ++ ")")) ∈
        calculate_class_statistics t) ∧
    (∀ j, amplitudeAt t j =
      match (colVals t j).max?, (colVals t j).min? with
      | some hi, some lo => some (hi - lo)
      | _, _ => none) := by
  refine ⟨?_, ?_, amplitudeAt_minmax t⟩
  · intro hsub
    have hd : dispersionStr t = "N/A" := by
      unfold dispersionStr
      rw [if_pos (by simpa [List.isEmpty_iff] using hsub)]
    have hmem := calc_dispersion_mem t hne
    rw [hd] at hmem
    exact hmem
  · intro hsub
    have hd : dispersionStr t = String.intercalate ", "
          (((amplitudes t).filter (fun p =>
              optEq p.2 (seriesMax ((amplitudes t).map Prod.snd)))).map Prod.fst)
        ++ " (Amplitude: "
        ++ pyOptRepr (seriesMax ((amplitudes t).map Prod.snd)) ++ ")" := by
      unfold dispersionStr
      rw [if_neg (by simpa [List.isEmpty_iff] using hsub)]
    have hmem := calc_dispersion_mem t hne
    rw [hd] at hmem
    exact hmem

/-- Witness for C7 on the amplitude scenario table with grades
`[2, 5, 3]`. -/
theorem C7_max_dispersion_witness :
    ∃ v : String, (dispersionLabel, StatValue.str v) ∈
      calculate_class_statistics c7table :=
  ⟨_, (C7_max_dispersion c7table (by decide)).2.1 (by decide)⟩

/-- C8. Any grid with fewer rows than the fixed header indices require
makes the extractor fail with the (IndexError-modelled) format error; no
table is produced and the same error propagates through the upload
pipeline to the single outermost boundary handler. -/
theorem C8_layout_error (grid : List (List Cell))
    (h : grid.length < DATA_START_IDX) :
    process_student_grades grid = .error indexErrorMsg ∧
    uploadPipeline grid = .error indexErrorMsg := by
  have hp : process_student_grades grid = .error indexErrorMsg := by
    rw [process_eq, if_pos h]
  refine ⟨hp, ?_⟩
  unfold uploadPipeline
  rw [hp]
  rfl

/-- Witness for C8 at the empty grid. -/
theorem C8_layout_error_witness :
    process_student_grades [] = .error indexErrorMsg ∧
    uploadPipeline [] = .error indexErrorMsg :=
  C8_layout_error [] (by decide)

/-- C9. When two columns `i < j` both carry the `"CF"` flag under the
same forward-filled subject label, the column map binds the subject to
its highest flagged column (at least `j`, so never `i`), the map holds
no other entry for the subject, and every student record's grades are
read exclusively through the map's columns — the earlier flagged
column's cells are never read for that subject. -/
theorem C9_last_flag_wins (sr cr : List Cell) (width : Nat) (s : String)
    (i j : Nat) (hij : i < j) (hjw : j < width)
    (hi : flaggedCol sr cr s i) (hj : flaggedCol sr cr s j) :
    ∃ k, dictLookup (buildColMap sr cr width) s = some k ∧ j ≤ k ∧ i < k ∧
      flaggedCol sr cr s k ∧
      (∀ p ∈ buildColMap sr cr width, p.1 = s → p.2 = k) ∧
      (∀ row, (mkStudent (buildColMap sr cr width) row).grades =
        (buildColMap sr cr width).map
          (fun p => normalizeGrade (getCell row p.2))) := by
  rcases lastFlagged_ge sr cr s j hj width hjw with ⟨k, hk, hjk, hfk⟩
  have hlk : dictLookup (buildColMap sr cr width) s = some k := by
    unfold buildColMap
    rw [dictLookup_colMap, hk]
  refine ⟨k, hlk, hjk, lt_of_lt_of_le hij hjk, hfk, ?_, fun row => rfl⟩
  intro p hp hps
  have hnd := colMap_keys_nodup sr cr width
  have hmem : (s, p.2) ∈ buildColMap sr cr width := by
    rw [← hps]
    simpa using hp
  have hlp := dictLookup_of_mem (buildColMap sr cr width) s p.2 hnd hmem
  rw [hlk] at hlp
  exact (Option.some.inj hlp).symm

/-- Witness for C9: one subject label, two consecutive `"CF"` columns —
the map resolves to the later one. -/
theorem C9_last_flag_wins_witness :
    ∃ k, dictLookup (buildColMap [Cell.str "Mat"]
        [Cell.str "CF", Cell.str "CF"] 2) "Mat" = some k ∧ 1 ≤ k := by
  rcases C9_last_flag_wins [Cell.str "Mat"] [Cell.str "CF", Cell.str "CF"] 2
      "Mat" 0 1 (by decide) (by decide)
      ⟨rfl, rfl, by decide⟩ ⟨rfl, rfl, by decide⟩ with ⟨k, h1, h2, _⟩
  exact ⟨k, h1, h2⟩

/-- C10. On a non-empty table with at least one subject column in which
every student's grades are all missing, the dispersion metric does not
fall into the `"N/A"` branch: the subject set matching the (NaN) maximum
is empty and the reported string names no subject before the amplitude
suffix. -/
theorem C10_all_missing_dispersion (t : StructTable) (hrows : t.rows ≠ [])
    (hsub : t.subjects ≠ [])
    (hmiss : ∀ st ∈ t.rows, notEvaluated t.subjects.length st = true) :
    (dispersionLabel, StatValue.str " (Amplitude: nan)") ∈
      calculate_class_statistics t ∧
    dispersionStr t ≠ "N/A" := by
  have he := evaluatedRows_nil t hmiss
  have hd := dispersionStr_all_missing t hsub he
  constructor
  · have hmem := calc_dispersion_mem t hrows
    rw [hd] at hmem
    exact hmem
  · rw [hd]
    decide

/-- Witness for C10: one subject, one student, all grades missing. -/
theorem C10_all_missing_dispersion_witness :
    (dispersionLabel, StatValue.str " (Amplitude: nan)") ∈
      calculate_class_statistics
        ⟨["Mat"], [⟨Cell.num 1, Cell.str "A", [none]⟩]⟩ :=
  (C10_all_missing_dispersion _ (by decide) (by decide) (by decide)).1

end Inovar
